import Mathlib

/-!
Verification development for the dash-evaluating-proximity dashboard
(`src/app.py`), a Dash application that cross-filters a choropleth map of
per-block distances to urban amenities by brushing a range on an ECDF chart.

The embedding follows the source:
* `amenities`, `colors`, `colormap`, `amenity_names` — module constants
  (app.py lines 15-49).
* `DistRow` / `DistStore` — the `df_dist` table: one row per block, one
  distance column (in km, already divided by 1000) per amenity.
* `generate_map` (app.py lines 114-179): builds the map figure.  All
  amenity-keyed lookups in the source (`df_dist[amenity]`,
  `colormap[amenity]`, `amenity_names[amenity]`) succeed exactly when the
  amenity is a member of `amenities`; an unknown key raises KeyError, which
  is modelled as `Except.error (Err.keyError _)`.
* `generate_ecdf_plot` (app.py lines 79-111): builds the ECDF figure; the
  `colormap[amenity]` lookup likewise raises on unknown amenities.
* `update_map` (app.py lines 294-317): the map callback, including the
  `dash.callback_context` trigger sniffing; a trigger `"id.prop"` string is
  modelled as the pair of its two components.
* `update_production` (app.py lines 321-328): the ECDF callback.
* `controllerStep` models one stimulus processed by the Dash event loop
  (an external collaborator to this repo): a callback runs only when one of
  its declared Inputs changes (`update_map`'s Inputs are
  `amenity-select.value` and `ecdf.selectedData`, app.py lines 286-292,
  with `ecdf.relayoutData` commented out at line 290), it receives the
  current property values and the fired trigger, and a callback that
  raises leaves the component properties and the previously rendered
  figures unchanged (the stimulus is discarded).  A brush-like event from
  any non-declared source never invokes a callback at all.
-/

namespace DashProximity

/-- The enumerated amenity categories (app.py line 15). -/
def amenities : List String := ["hospital", "supermarket", "school", "library"]

/-- Legend colors (app.py line 46). -/
def colors : List String := ["#EA5138", "#E4AE36", "#1F386B", "#507332"]

/-- The colormap dict built by zipping `amenities` with `colors`
(app.py lines 47-49); lookup of a key outside `amenities` raises KeyError,
modelled as `none`. -/
def colormap (a : String) : Option String := List.lookup a (amenities.zip colors)

/-- The display-name dict (app.py line 16); unknown key raises, modelled as
`none`. -/
def amenity_names (a : String) : Option String :=
  List.lookup a
    [("hospital", "Hospitals"), ("school", "Schools"),
     ("supermarket", "Supermarkets"), ("library", "Libraries")]

/-- One row of `df_dist` (app.py line 38): a stable block identifier
`geoid10` and one distance value (km) per amenity column. -/
structure DistRow where
  geoid10 : String
  hospital : ℚ
  supermarket : ℚ
  school : ℚ
  library : ℚ
deriving DecidableEq

/-- The `df_dist` table: ordered rows, positionally indexed as in pandas. -/
abbrev DistStore := List DistRow

/-- Column access `df_dist[a]` restricted to one row: the table has exactly
the four amenity columns, so any other key raises KeyError (`none`). -/
def DistRow.col (r : DistRow) (a : String) : Option ℚ :=
  if a = "hospital" then some r.hospital
  else if a = "supermarket" then some r.supermarket
  else if a = "school" then some r.school
  else if a = "library" then some r.library
  else none

/-- The distance value of row `r` in column `a` (total helper; only used
under the guard that the column exists). -/
def rowVal (r : DistRow) (a : String) : ℚ := (r.col a).getD 0

/-- One row of the `destinations` table (app.py line 41). -/
structure Dest where
  dest_type : String
  lat : ℚ
  lon : ℚ
deriving DecidableEq

/-- One row of the `df_ecdf` table (app.py line 43). -/
structure EcdfRow where
  amenity : String
  distance : ℚ
  perc : ℚ
deriving DecidableEq

/-- A raised Python exception: KeyError on an amenity-keyed lookup. -/
inductive Err where
  | keyError (key : String)
deriving DecidableEq

deriving instance DecidableEq for Except

/-- The map figure data that `generate_map` produces: the choropleth trace
(locations, z, selectedpoints) and the destination scatter trace. -/
structure MapFigure where
  locations : List String
  z : List ℚ
  selectedpoints : List Nat
  dest_lat : List ℚ
  dest_lon : List ℚ
  marker_color : String
  dest_name : String
deriving DecidableEq

/-- The ECDF figure data that `generate_ecdf_plot` produces. -/
structure EcdfFigure where
  x : List ℚ
  y : List ℚ
  text : List String
  line_color : String
deriving DecidableEq

/-- `Series.between(lo, hi, inclusive=True)` on one value: inclusive on
both endpoints. -/
def inRange (lo hi v : ℚ) : Bool := decide (lo ≤ v) && decide (v ≤ hi)

/-- `df_dist.index[df_dist[amenity].between(x_range[0], x_range[1],
inclusive=True)].tolist()` (app.py line 152): the positional indices of the
rows whose distance value for `amenity` lies in the closed interval. -/
def betweenIdx (store : DistStore) (amenity : String) (lo hi : ℚ) : List Nat :=
  (List.range store.length).filter fun i =>
    match store[i]? with
    | some r => inRange lo hi (rowVal r amenity)
    | none => false

/-- `generate_map(amenity, dff_dest, x_range)` (app.py lines 114-179).
The choropleth always carries every row's geoid and distance;
`selectedpoints` is the filtered index list when `x_range` is given (a
two-element list is always truthy in Python, so `Option` captures the
`if x_range:` test) and the full index list otherwise.  An amenity outside
`amenities` raises KeyError at the column / colormap / name lookups. -/
def generate_map (store : DistStore) (amenity : String) (dff_dest : List Dest)
    (x_range : Option (ℚ × ℚ)) : Except Err MapFigure :=
  if amenities.contains amenity then
    Except.ok
      { locations := store.map DistRow.geoid10
        z := store.map fun r => rowVal r amenity
        selectedpoints :=
          match x_range with
          | some (lo, hi) => betweenIdx store amenity lo hi
          | none => List.range store.length
        dest_lat := dff_dest.map Dest.lat
        dest_lon := dff_dest.map Dest.lon
        marker_color := (colormap amenity).getD ""
        dest_name := (amenity_names amenity).getD "" }
  else Except.error (Err.keyError amenity)

/-- `generate_ecdf_plot(amenity_select)` (app.py lines 79-111): filters the
ECDF table to the selected amenity, preserving row order; the
`colormap[amenity]` lookup (line 108) raises on an unknown amenity. -/
def generate_ecdf_plot (df_ecdf : List EcdfRow) (amenity_select : String) :
    Except Err EcdfFigure :=
  if amenities.contains amenity_select then
    Except.ok
      { x := (df_ecdf.filter fun r => r.amenity == amenity_select).map EcdfRow.distance
        y := (df_ecdf.filter fun r => r.amenity == amenity_select).map EcdfRow.perc
        text := (df_ecdf.filter fun r => r.amenity == amenity_select).map EcdfRow.amenity
        line_color := (colormap amenity_select).getD "" }
  else Except.error (Err.keyError amenity_select)

/-- The payload of an `ecdf.selectedData` event that the callback reads:
`selectedData['range']['x']`, a two-element interval. -/
structure SelectedData where
  range_x : ℚ × ℚ
deriving DecidableEq

/-- The `x_range` local computed in `update_map` (app.py lines 297-315):
only a trigger from `ecdf.selectedData` applies the brush payload; any
other trigger (or a falsy / cleared payload) leaves `x_range = None`. -/
def compute_x_range (prop_id prop_type : String) (sd : Option SelectedData) :
    Option (ℚ × ℚ) :=
  if prop_id = "ecdf" ∧ prop_type = "selectedData" then
    match sd with
    | some d => some d.range_x
    | none => none
  else none

/-- `update_map(amenity_select, ecdf_selectedData)` (app.py lines 294-317).
`triggered` is the first entry of `dash.callback_context.triggered`, its
`"id.prop"` string split into the pair (prop_id, prop_type); `none` models
an empty trigger list (initial call). -/
def update_map (destinations : List Dest) (store : DistStore)
    (amenity_select : String) (ecdf_selectedData : Option SelectedData)
    (triggered : Option (String × String)) : Except Err MapFigure :=
  let dff_dest := destinations.filter fun d => d.dest_type == amenity_select
  let prop_id := match triggered with | some t => t.1 | none => ""
  let prop_type := match triggered with | some t => t.2 | none => ""
  generate_map store amenity_select dff_dest
    (compute_x_range prop_id prop_type ecdf_selectedData)

/-- `update_production(amenity_select)` (app.py lines 321-328). -/
def update_production (df_ecdf : List EcdfRow) (amenity_select : String) :
    Except Err EcdfFigure :=
  generate_ecdf_plot df_ecdf amenity_select

/-- The observable state of the app between stimuli: the dropdown value,
the stored `ecdf.selectedData` property, the `x_range` actually applied in
the last map rebuild (the realization of the spec's `Selection.range`), and
the two currently rendered figures. -/
structure AppState where
  amenity_select : String
  ecdf_selectedData : Option SelectedData
  x_range : Option (ℚ × ℚ)
  map_fig : MapFigure
  ecdf_fig : EcdfFigure
deriving DecidableEq

/-- The two external stimuli of the interaction controller. -/
inductive Stimulus where
  | amenityChanged (c : String)
  | rangeBrushed (prop_id prop_type : String) (payload : Option SelectedData)
deriving DecidableEq

/-- One stimulus processed by the Dash event loop.  Modelled from the
framework semantics (Dash is an external collaborator, not repository
code): a callback fires only when one of its declared Inputs changes.
An `amenity-select.value` change fires both callbacks with trigger
`("amenity-select", "value")`.  A brush event from `ecdf.selectedData` —
the only brush-like declared Input of `update_map` (app.py lines 286-292;
`ecdf.relayoutData` is commented out at line 290) — updates the stored
`selectedData` property and fires `update_map` with that trigger; a
brush-like event from any other source fires no callback, leaving the
state unchanged.  A callback that raises leaves the component properties
and previously rendered figures unchanged — the stimulus is discarded. -/
def controllerStep (dests : List Dest) (store : DistStore)
    (df_ecdf : List EcdfRow) (s : AppState) : Stimulus → AppState
  | Stimulus.amenityChanged c =>
    match update_map dests store c s.ecdf_selectedData
            (some ("amenity-select", "value")),
          update_production df_ecdf c with
    | Except.ok mf, Except.ok ef =>
      { amenity_select := c
        ecdf_selectedData := s.ecdf_selectedData
        x_range := compute_x_range "amenity-select" "value" s.ecdf_selectedData
        map_fig := mf
        ecdf_fig := ef }
    | _, _ => s
  | Stimulus.rangeBrushed pid pty payload =>
    if pid = "ecdf" ∧ pty = "selectedData" then
      match update_map dests store s.amenity_select payload (some (pid, pty)) with
      | Except.ok mf =>
        { amenity_select := s.amenity_select
          ecdf_selectedData := payload
          x_range := compute_x_range pid pty payload
          map_fig := mf
          ecdf_fig := s.ecdf_fig }
      | Except.error _ => s
    else s

/-- The block identifiers of the highlighted (selected) choropleth points:
`selectedpoints` are positional indices into `locations`. -/
def selectedGeoids (m : MapFigure) : List String :=
  m.selectedpoints.filterMap fun i => m.locations[i]?

/-- Concrete sample distance table used by the witnesses, mirroring the
spec example (hospital distances rescaled to whole numbers: A 12, B 34,
C 5). -/
def sampleStore : DistStore :=
  [⟨"A", 12, 2, 3, 4⟩, ⟨"B", 34, 2, 3, 4⟩, ⟨"C", 5, 2, 3, 4⟩]

/-- Concrete sample destination table used by the witnesses. -/
def sampleDests : List Dest := [⟨"hospital", 1, 2⟩, ⟨"school", 3, 4⟩]

/-- Concrete sample ECDF table used by the witnesses. -/
def sampleEcdf : List EcdfRow :=
  [⟨"hospital", 1, 50⟩, ⟨"school", 2, 60⟩, ⟨"hospital", 3, 90⟩]

/-- A concrete app state used by the witnesses: default amenity, no stored
brush, and empty placeholder figures. -/
def baseState : AppState :=
  { amenity_select := "hospital"
    ecdf_selectedData := none
    x_range := none
    map_fig := { locations := [], z := [], selectedpoints := [],
                 dest_lat := [], dest_lon := [], marker_color := "",
                 dest_name := "" }
    ecdf_fig := { x := [], y := [], text := [], line_color := "" } }

/-- A reachable state holding a bounded brush: `baseState` after a genuine
`ecdf.selectedData` brush of the interval [0, 10] (which highlights only
block C). -/
def brushState : AppState :=
  controllerStep sampleDests sampleStore sampleEcdf baseState
    (Stimulus.rangeBrushed "ecdf" "selectedData" (some ⟨(0, 10)⟩))

/-- Selecting positional indices out of the geoid column and then reading
the geoids back gives exactly the rows whose payload satisfies the filter
predicate. -/
theorem mem_selected_filter (store : DistStore) (p : DistRow → Bool) (g : String) :
    (g ∈ ((List.range store.length).filter fun i =>
        match store[i]? with
        | some r => p r
        | none => false).filterMap fun i => (store.map DistRow.geoid10)[i]?) ↔
      ∃ r, r ∈ store ∧ p r = true ∧ r.geoid10 = g := by
  rw [List.mem_filterMap]
  constructor
  · rintro ⟨i, hi, hg⟩
    simp only [List.mem_filter, List.mem_range] at hi
    obtain ⟨hilt, hp⟩ := hi
    rw [List.getElem?_map] at hg
    cases hs : store[i]? with
    | none =>
      rw [hs] at hg
      simp at hg
    | some r =>
      rw [hs] at hg
      rw [hs] at hp
      obtain ⟨hlt2, heq⟩ := List.getElem?_eq_some.mp hs
      refine ⟨r, heq ▸ List.getElem_mem hlt2, hp, ?_⟩
      exact Option.some.inj hg
  · rintro ⟨r, hr, hp, hg⟩
    obtain ⟨i, hi⟩ := List.mem_iff_getElem?.mp hr
    have hlt : i < store.length := (List.getElem?_eq_some.mp hi).1
    refine ⟨i, ?_, ?_⟩
    · simp only [List.mem_filter, List.mem_range]
      refine ⟨hlt, ?_⟩
      rw [hi]
      exact hp
    · rw [List.getElem?_map, hi]
      exact congrArg some hg

/-- Reading every position of a list back through the optional indexer
reproduces the list. -/
theorem range_filterMap_getElem {α : Type} (l : List α) :
    ((List.range l.length).filterMap fun i => l[i]?) = l := by
  induction l with
  | nil => rfl
  | cons a t ih =>
    rw [List.length_cons, List.range_succ_eq_map, List.filterMap_cons,
      List.filterMap_map]
    have hcomp : ((fun i => (a :: t)[i]?) ∘ Nat.succ) = fun i : Nat => t[i]? := by
      funext i
      exact List.getElem?_cons_succ
    rw [hcomp, ih]
    simp [List.getElem?_cons_zero]

/-- A map figure whose locations are the geoid column and whose selected
points are the full index range highlights every geoid. -/
theorem selectedGeoids_full (store : DistStore) (m : MapFigure)
    (hl : m.locations = store.map DistRow.geoid10)
    (hs : m.selectedpoints = List.range store.length) :
    selectedGeoids m = store.map DistRow.geoid10 := by
  rw [selectedGeoids, hs, hl]
  rw [show store.length = (store.map DistRow.geoid10).length from
    (List.length_map store DistRow.geoid10).symm]
  exact range_filterMap_getElem _

/-- `update_map` with a present trigger unfolds to `generate_map` on the
filtered destinations and the computed x-range. -/
theorem update_map_some_trig (dests : List Dest) (store : DistStore)
    (amenity : String) (sd : Option SelectedData) (pid pty : String) :
    update_map dests store amenity sd (some (pid, pty)) =
      generate_map store amenity (dests.filter fun d => d.dest_type == amenity)
        (compute_x_range pid pty sd) := rfl

/-- `update_map` with an empty trigger list (initial call) unfolds to
`generate_map` with the empty-string trigger components. -/
theorem update_map_none_trig (dests : List Dest) (store : DistStore)
    (amenity : String) (sd : Option SelectedData) :
    update_map dests store amenity sd none =
      generate_map store amenity (dests.filter fun d => d.dest_type == amenity)
        (compute_x_range "" "" sd) := rfl

/-- For a valid amenity, `generate_map` returns the figure record. -/
theorem generate_map_ok (store : DistStore) (c : String) (dff_dest : List Dest)
    (x_range : Option (ℚ × ℚ)) (hc : amenities.contains c = true) :
    generate_map store c dff_dest x_range =
      Except.ok
        { locations := store.map DistRow.geoid10
          z := store.map fun r => rowVal r c
          selectedpoints :=
            match x_range with
            | some (lo, hi) => betweenIdx store c lo hi
            | none => List.range store.length
          dest_lat := dff_dest.map Dest.lat
          dest_lon := dff_dest.map Dest.lon
          marker_color := (colormap c).getD ""
          dest_name := (amenity_names c).getD "" } := by
  rw [generate_map.eq_def, if_pos hc]

/-- For an invalid amenity, `generate_map` raises KeyError. -/
theorem generate_map_error (store : DistStore) (c : String)
    (dff_dest : List Dest) (x_range : Option (ℚ × ℚ))
    (hc : amenities.contains c = false) :
    generate_map store c dff_dest x_range = Except.error (Err.keyError c) := by
  have h : ¬(amenities.contains c = true) := by
    intro heq
    rw [hc] at heq
    exact Bool.noConfusion heq
  rw [generate_map.eq_def, if_neg h]

/-- For a valid amenity, `generate_ecdf_plot` returns the figure record. -/
theorem generate_ecdf_plot_ok (df_ecdf : List EcdfRow) (c : String)
    (hc : amenities.contains c = true) :
    generate_ecdf_plot df_ecdf c =
      Except.ok
        { x := (df_ecdf.filter fun r => r.amenity == c).map EcdfRow.distance
          y := (df_ecdf.filter fun r => r.amenity == c).map EcdfRow.perc
          text := (df_ecdf.filter fun r => r.amenity == c).map EcdfRow.amenity
          line_color := (colormap c).getD "" } := by
  rw [generate_ecdf_plot, if_pos hc]

/-- For an invalid amenity, `generate_ecdf_plot` raises KeyError. -/
theorem generate_ecdf_plot_error (df_ecdf : List EcdfRow) (c : String)
    (hc : amenities.contains c = false) :
    generate_ecdf_plot df_ecdf c = Except.error (Err.keyError c) := by
  have h : ¬(amenities.contains c = true) := by
    intro heq
    rw [hc] at heq
    exact Bool.noConfusion heq
  rw [generate_ecdf_plot, if_neg h]

/-- Evaluation of one `amenityChanged` step on a valid category: both
callbacks succeed, the dropdown value becomes the new category, and the
map is rebuilt with no filter. -/
theorem step_amenityChanged_eq (dests : List Dest) (store : DistStore)
    (df_ecdf : List EcdfRow) (s : AppState) (c : String)
    (hc : amenities.contains c = true) :
    controllerStep dests store df_ecdf s (Stimulus.amenityChanged c) =
      { amenity_select := c
        ecdf_selectedData := s.ecdf_selectedData
        x_range := none
        map_fig :=
          { locations := store.map DistRow.geoid10
            z := store.map fun r => rowVal r c
            selectedpoints := List.range store.length
            dest_lat := (dests.filter fun d => d.dest_type == c).map Dest.lat
            dest_lon := (dests.filter fun d => d.dest_type == c).map Dest.lon
            marker_color := (colormap c).getD ""
            dest_name := (amenity_names c).getD "" }
        ecdf_fig :=
          { x := (df_ecdf.filter fun r => r.amenity == c).map EcdfRow.distance
            y := (df_ecdf.filter fun r => r.amenity == c).map EcdfRow.perc
            text := (df_ecdf.filter fun r => r.amenity == c).map EcdfRow.amenity
            line_color := (colormap c).getD "" } } := by
  simp only [controllerStep, update_map_some_trig, update_production]
  rw [show compute_x_range "amenity-select" "value" s.ecdf_selectedData = none
    from rfl]
  rw [generate_map_ok store c _ none hc, generate_ecdf_plot_ok df_ecdf c hc]

/-- Evaluation of one matched brush step with a bounded payload on a valid
selected amenity: the payload is stored and applied. -/
theorem step_brush_some_eq (dests : List Dest) (store : DistStore)
    (df_ecdf : List EcdfRow) (s : AppState) (lo hi : ℚ)
    (ha : amenities.contains s.amenity_select = true) :
    controllerStep dests store df_ecdf s
        (Stimulus.rangeBrushed "ecdf" "selectedData" (some ⟨(lo, hi)⟩)) =
      { amenity_select := s.amenity_select
        ecdf_selectedData := some ⟨(lo, hi)⟩
        x_range := some (lo, hi)
        map_fig :=
          { locations := store.map DistRow.geoid10
            z := store.map fun r => rowVal r s.amenity_select
            selectedpoints := betweenIdx store s.amenity_select lo hi
            dest_lat :=
              (dests.filter fun d => d.dest_type == s.amenity_select).map Dest.lat
            dest_lon :=
              (dests.filter fun d => d.dest_type == s.amenity_select).map Dest.lon
            marker_color := (colormap s.amenity_select).getD ""
            dest_name := (amenity_names s.amenity_select).getD "" }
        ecdf_fig := s.ecdf_fig } := by
  simp only [controllerStep, update_map_some_trig]
  rw [generate_map_ok store s.amenity_select _ _ ha]
  rfl

/-- Evaluation of one matched brush step with a cleared (falsy) payload on
a valid selected amenity: the stored selection is cleared and the map is
rebuilt with no filter. -/
theorem step_brush_none_eq (dests : List Dest) (store : DistStore)
    (df_ecdf : List EcdfRow) (s : AppState)
    (ha : amenities.contains s.amenity_select = true) :
    controllerStep dests store df_ecdf s
        (Stimulus.rangeBrushed "ecdf" "selectedData" none) =
      { amenity_select := s.amenity_select
        ecdf_selectedData := none
        x_range := none
        map_fig :=
          { locations := store.map DistRow.geoid10
            z := store.map fun r => rowVal r s.amenity_select
            selectedpoints := List.range store.length
            dest_lat :=
              (dests.filter fun d => d.dest_type == s.amenity_select).map Dest.lat
            dest_lon :=
              (dests.filter fun d => d.dest_type == s.amenity_select).map Dest.lon
            marker_color := (colormap s.amenity_select).getD ""
            dest_name := (amenity_names s.amenity_select).getD "" }
        ecdf_fig := s.ecdf_fig } := by
  simp only [controllerStep, update_map_some_trig]
  rw [generate_map_ok store s.amenity_select _ _ ha]
  rfl

/-- Claim C1: for every category, every bounded range [lo, hi] with
lo ≤ hi, and every store, the range filter of `generate_map` selects
exactly the block identifiers whose distance value for the category
satisfies lo ≤ value ≤ hi, inclusive on both endpoints; in the degenerate
case lo = hi it selects exactly the blocks whose value equals that single
number, without error. -/
theorem claim1_range_filter_exact (store : DistStore) (c : String)
    (hc : amenities.contains c = true) (lo hi : ℚ) (hle : lo ≤ hi)
    (dff_dest : List Dest) :
    ∃ m, generate_map store c dff_dest (some (lo, hi)) = Except.ok m ∧
      (∀ g, g ∈ selectedGeoids m ↔
        ∃ r, r ∈ store ∧ (lo ≤ rowVal r c ∧ rowVal r c ≤ hi) ∧ r.geoid10 = g) ∧
      (lo = hi → ∀ g, g ∈ selectedGeoids m ↔
        ∃ r, r ∈ store ∧ rowVal r c = lo ∧ r.geoid10 = g) := by
  rw [generate_map, if_pos hc]
  refine ⟨_, rfl, ?_, ?_⟩
  · intro g
    have base := mem_selected_filter store
      (fun r => inRange lo hi (rowVal r c)) g
    refine Iff.trans ?_ (base.trans ?_)
    · exact Iff.rfl
    · simp only [inRange, Bool.and_eq_true, decide_eq_true_eq]
  · intro hlohi g
    subst hlohi
    have base := mem_selected_filter store
      (fun r => inRange lo lo (rowVal r c)) g
    refine Iff.trans ?_ (base.trans ?_)
    · exact Iff.rfl
    · simp only [inRange, Bool.and_eq_true, decide_eq_true_eq]
      constructor
      · rintro ⟨r, hr, ⟨h1, h2⟩, hg⟩
        exact ⟨r, hr, le_antisymm h2 h1, hg⟩
      · rintro ⟨r, hr, hv, hg⟩
        exact ⟨r, hr, ⟨le_of_eq hv.symm, le_of_eq hv⟩, hg⟩

/-- Witness for C1 at the spec example (scaled): hospital distances
A 12, B 34, C 5 and brush [5, 12]. -/
theorem claim1_witness :
    ∃ m, generate_map sampleStore "hospital" sampleDests (some (5, 12)) =
        Except.ok m ∧
      (∀ g, g ∈ selectedGeoids m ↔
        ∃ r, r ∈ sampleStore ∧
          ((5 : ℚ) ≤ rowVal r "hospital" ∧ rowVal r "hospital" ≤ 12) ∧
          r.geoid10 = g) ∧
      ((5 : ℚ) = 12 → ∀ g, g ∈ selectedGeoids m ↔
        ∃ r, r ∈ sampleStore ∧ rowVal r "hospital" = 5 ∧ r.geoid10 = g) :=
  claim1_range_filter_exact sampleStore "hospital" (by decide) 5 12
    (by decide) sampleDests

/-- Claim C2: for every category and store, invoking `generate_map` with
the unbounded (no-filter) range highlights exactly the full list of block
identifiers present in the store. -/
theorem claim2_unbounded_full_set (store : DistStore) (c : String)
    (hc : amenities.contains c = true) (dff_dest : List Dest) :
    ∃ m, generate_map store c dff_dest none = Except.ok m ∧
      selectedGeoids m = store.map DistRow.geoid10 := by
  rw [generate_map, if_pos hc]
  refine ⟨_, rfl, ?_⟩
  exact selectedGeoids_full store _ rfl rfl

/-- Witness for C2 at the sample store. -/
theorem claim2_witness :
    ∃ m, generate_map sampleStore "school" sampleDests none = Except.ok m ∧
      selectedGeoids m = sampleStore.map DistRow.geoid10 :=
  claim2_unbounded_full_set sampleStore "school" (by decide) sampleDests

/-- Claim C5: for every category and every selected range (bounded or
unbounded), the map figure's per-block distance layer — the block
identifier list and the per-block distance values — and the destination
layer are identical to those produced with no filter: only the highlighted
subset may differ. -/
theorem claim5_choropleth_never_filtered (store : DistStore) (c : String)
    (hc : amenities.contains c = true) (dff_dest : List Dest)
    (x_range : Option (ℚ × ℚ)) :
    ∃ m m₀, generate_map store c dff_dest x_range = Except.ok m ∧
      generate_map store c dff_dest none = Except.ok m₀ ∧
      m.locations = m₀.locations ∧ m.z = m₀.z ∧
      m.dest_lat = m₀.dest_lat ∧ m.dest_lon = m₀.dest_lon := by
  simp only [generate_map, hc, if_true]
  exact ⟨_, _, rfl, rfl, rfl, rfl, rfl, rfl⟩

/-- Witness for C5 at the sample store with a bounded brush. -/
theorem claim5_witness :
    ∃ m m₀,
      generate_map sampleStore "hospital" sampleDests (some (0, 10)) =
        Except.ok m ∧
      generate_map sampleStore "hospital" sampleDests none = Except.ok m₀ ∧
      m.locations = m₀.locations ∧ m.z = m₀.z ∧
      m.dest_lat = m₀.dest_lat ∧ m.dest_lon = m₀.dest_lon :=
  claim5_choropleth_never_filtered sampleStore "hospital" (by decide)
    sampleDests (some (0, 10))

/-- Claim C9: the map builder and the distribution builder are pure and
deterministic — two invocations with identical inputs yield identical
outputs.  In this embedding the source builders, which only read the
module-level tables and allocate fresh figure objects, are functions, so
determinism is definitional. -/
theorem claim9_builders_deterministic (store : DistStore) (c : String)
    (dff_dest : List Dest) (x_range : Option (ℚ × ℚ))
    (df_ecdf : List EcdfRow) :
    generate_map store c dff_dest x_range =
      generate_map store c dff_dest x_range ∧
    generate_ecdf_plot df_ecdf c = generate_ecdf_plot df_ecdf c :=
  ⟨rfl, rfl⟩

/-- An inverted interval (hi < lo) selects no row: the inclusive between
filter is unsatisfiable. -/
theorem betweenIdx_empty (store : DistStore) (c : String) (lo hi : ℚ)
    (h : hi < lo) : betweenIdx store c lo hi = [] := by
  rw [betweenIdx]
  apply List.filter_eq_nil_iff.mpr
  intro i _
  cases hs : store[i]? with
  | none => simp
  | some r =>
    simp only []
    intro hcon
    have hin : inRange lo hi (rowVal r c) = true := hcon
    have hle : lo ≤ rowVal r c ∧ rowVal r c ≤ hi := by
      simpa [inRange, Bool.and_eq_true, decide_eq_true_eq] using hin
    exact absurd (le_trans hle.1 hle.2) (not_le.mpr h)

/-- Claim C3: for every prior selection state, an `amenityChanged`
stimulus (for a member category) sets the selected category to the new
one and resets the applied range to unbounded, so the rebuilt map shows
the new category's distances and highlights the full block set. -/
theorem claim3_amenity_change_resets_range (dests : List Dest)
    (store : DistStore) (df_ecdf : List EcdfRow) (s : AppState) (c : String)
    (hc : amenities.contains c = true) :
    (controllerStep dests store df_ecdf s (Stimulus.amenityChanged c)).amenity_select = c ∧
    (controllerStep dests store df_ecdf s (Stimulus.amenityChanged c)).x_range = none ∧
    (controllerStep dests store df_ecdf s (Stimulus.amenityChanged c)).map_fig.z =
      store.map (fun r => rowVal r c) ∧
    selectedGeoids
      (controllerStep dests store df_ecdf s (Stimulus.amenityChanged c)).map_fig =
      store.map DistRow.geoid10 := by
  rw [step_amenityChanged_eq dests store df_ecdf s c hc]
  exact ⟨rfl, rfl, rfl, selectedGeoids_full store _ rfl rfl⟩

/-- Witness for C3: changing the amenity to school from a state holding a
prior brush. -/
theorem claim3_witness :
    (controllerStep sampleDests sampleStore sampleEcdf brushState
        (Stimulus.amenityChanged "school")).amenity_select = "school" ∧
    (controllerStep sampleDests sampleStore sampleEcdf brushState
        (Stimulus.amenityChanged "school")).x_range = none ∧
    (controllerStep sampleDests sampleStore sampleEcdf brushState
        (Stimulus.amenityChanged "school")).map_fig.z =
      sampleStore.map (fun r => rowVal r "school") ∧
    selectedGeoids
      (controllerStep sampleDests sampleStore sampleEcdf brushState
        (Stimulus.amenityChanged "school")).map_fig =
      sampleStore.map DistRow.geoid10 :=
  claim3_amenity_change_resets_range sampleDests sampleStore sampleEcdf
    brushState "school" (by decide)

/-- Claim C4: the distribution view model depends only on the category and
the store.  A brush stimulus never changes the rendered ECDF figure, and
two amenity changes to the same category from states with arbitrary (and
different) range selections produce identical ECDF figures. -/
theorem claim4_distribution_range_independent (dests : List Dest)
    (store : DistStore) (df_ecdf : List EcdfRow) (s₁ s₂ : AppState)
    (c : String) (hc : amenities.contains c = true) (pid pty : String)
    (payload : Option SelectedData) :
    (controllerStep dests store df_ecdf s₁
        (Stimulus.rangeBrushed pid pty payload)).ecdf_fig = s₁.ecdf_fig ∧
    (controllerStep dests store df_ecdf s₁ (Stimulus.amenityChanged c)).ecdf_fig =
      (controllerStep dests store df_ecdf s₂ (Stimulus.amenityChanged c)).ecdf_fig := by
  constructor
  · by_cases hsd : pid = "ecdf" ∧ pty = "selectedData"
    · rcases hcase : update_map dests store s₁.amenity_select payload
          (some (pid, pty)) with e | mf
      · simp only [controllerStep, if_pos hsd, hcase]
      · simp only [controllerStep, if_pos hsd, hcase]
    · simp only [controllerStep, if_neg hsd]
  · rw [step_amenityChanged_eq dests store df_ecdf s₁ c hc,
      step_amenityChanged_eq dests store df_ecdf s₂ c hc]

/-- Witness for C4: a concrete brush leaves the ECDF figure alone, and a
change to library from two different range states agrees. -/
theorem claim4_witness :
    (controllerStep sampleDests sampleStore sampleEcdf baseState
        (Stimulus.rangeBrushed "ecdf" "selectedData" (some ⟨(0, 10)⟩))).ecdf_fig =
      baseState.ecdf_fig ∧
    (controllerStep sampleDests sampleStore sampleEcdf baseState
        (Stimulus.amenityChanged "library")).ecdf_fig =
      (controllerStep sampleDests sampleStore sampleEcdf brushState
        (Stimulus.amenityChanged "library")).ecdf_fig :=
  claim4_distribution_range_independent sampleDests sampleStore sampleEcdf
    baseState brushState "library" (by decide) "ecdf" "selectedData"
    (some ⟨(0, 10)⟩)

/-- Claim C6: a range-brush stimulus whose trigger source is not the
distribution chart's `ecdf.selectedData` is ignored.  `update_map`'s
declared Inputs (app.py lines 286-292, with `ecdf.relayoutData` commented
out at line 290) include no other brush source, so Dash never invokes the
callback for such an event: the selection state — stored chart selection
and applied range — is unchanged, and the map figure, hence its highlight
derived from the prior range, is unchanged. -/
theorem claim6_foreign_brush_ignored (dests : List Dest) (store : DistStore)
    (df_ecdf : List EcdfRow) (s : AppState) (pid pty : String)
    (payload : Option SelectedData)
    (hsrc : ¬(pid = "ecdf" ∧ pty = "selectedData")) :
    controllerStep dests store df_ecdf s
        (Stimulus.rangeBrushed pid pty payload) = s ∧
    (controllerStep dests store df_ecdf s
        (Stimulus.rangeBrushed pid pty payload)).x_range = s.x_range ∧
    (controllerStep dests store df_ecdf s
        (Stimulus.rangeBrushed pid pty payload)).map_fig.selectedpoints =
      s.map_fig.selectedpoints := by
  have h : controllerStep dests store df_ecdf s
      (Stimulus.rangeBrushed pid pty payload) = s := by
    simp only [controllerStep, if_neg hsrc]
  exact ⟨h, by rw [h], by rw [h]⟩

/-- Witness for C6: a relayout-sourced brush event arriving after a real
brush of [0, 10] (which highlights only block C) leaves the state, the
applied range, and the highlight untouched. -/
theorem claim6_witness :
    controllerStep sampleDests sampleStore sampleEcdf brushState
        (Stimulus.rangeBrushed "ecdf" "relayoutData" (some ⟨(0, 10)⟩)) =
      brushState ∧
    (controllerStep sampleDests sampleStore sampleEcdf brushState
        (Stimulus.rangeBrushed "ecdf" "relayoutData" (some ⟨(0, 10)⟩))).x_range =
      brushState.x_range ∧
    (controllerStep sampleDests sampleStore sampleEcdf brushState
        (Stimulus.rangeBrushed "ecdf" "relayoutData" (some ⟨(0, 10)⟩))).map_fig.selectedpoints =
      brushState.map_fig.selectedpoints :=
  claim6_foreign_brush_ignored sampleDests sampleStore sampleEcdf brushState
    "ecdf" "relayoutData" (some ⟨(0, 10)⟩) (by decide)

/-- Claim C7: an `amenityChanged` stimulus naming a category outside the
enumerated set fails — both callbacks raise KeyError on the unknown key —
and the stimulus is discarded: the state, including the previously valid
view models, is unchanged. -/
theorem claim7_invalid_category_discarded (dests : List Dest)
    (store : DistStore) (df_ecdf : List EcdfRow) (s : AppState) (c : String)
    (hc : amenities.contains c = false) :
    controllerStep dests store df_ecdf s (Stimulus.amenityChanged c) = s ∧
    update_map dests store c s.ecdf_selectedData
      (some ("amenity-select", "value")) = Except.error (Err.keyError c) ∧
    update_production df_ecdf c = Except.error (Err.keyError c) := by
  have hm : update_map dests store c s.ecdf_selectedData
      (some ("amenity-select", "value")) = Except.error (Err.keyError c) := by
    rw [update_map_some_trig]
    exact generate_map_error store c _ _ hc
  have hp : update_production df_ecdf c = Except.error (Err.keyError c) := by
    rw [update_production]
    exact generate_ecdf_plot_error df_ecdf c hc
  refine ⟨?_, hm, hp⟩
  simp only [controllerStep, hm, hp]

/-- Witness for C7: the unknown category gym is rejected from the base
state. -/
theorem claim7_witness :
    controllerStep sampleDests sampleStore sampleEcdf baseState
        (Stimulus.amenityChanged "gym") = baseState ∧
    update_map sampleDests sampleStore "gym" baseState.ecdf_selectedData
      (some ("amenity-select", "value")) = Except.error (Err.keyError "gym") ∧
    update_production sampleEcdf "gym" = Except.error (Err.keyError "gym") :=
  claim7_invalid_category_discarded sampleDests sampleStore sampleEcdf
    baseState "gym" (by decide)

/-- Counterexample to claim C8 as stated: the inverted interval [10, 0]
brushed from the chart is not rejected — `update_map` succeeds, the range
is stored and applied, the highlight becomes empty, and the state
changes. -/
theorem claim8_counterexample :
    update_map sampleDests sampleStore "hospital" (some ⟨(10, 0)⟩)
        (some ("ecdf", "selectedData")) =
      Except.ok (controllerStep sampleDests sampleStore sampleEcdf baseState
        (Stimulus.rangeBrushed "ecdf" "selectedData" (some ⟨(10, 0)⟩))).map_fig ∧
    (controllerStep sampleDests sampleStore sampleEcdf baseState
        (Stimulus.rangeBrushed "ecdf" "selectedData" (some ⟨(10, 0)⟩))).x_range =
      some (10, 0) ∧
    (controllerStep sampleDests sampleStore sampleEcdf baseState
        (Stimulus.rangeBrushed "ecdf" "selectedData" (some ⟨(10, 0)⟩))).map_fig.selectedpoints =
      [] ∧
    ¬(controllerStep sampleDests sampleStore sampleEcdf baseState
        (Stimulus.rangeBrushed "ecdf" "selectedData" (some ⟨(10, 0)⟩)) = baseState) := by
  decide

/-- Claim C8 as amended: a brush carrying a bounded interval with lo > hi
is accepted without error — the interval is stored and used for filtering,
which the inclusive between-filter satisfies vacuously, so the highlight
is the empty set. -/
theorem claim8_amended_inverted_range_accepted (dests : List Dest)
    (store : DistStore) (df_ecdf : List EcdfRow) (s : AppState) (lo hi : ℚ)
    (h : hi < lo) (ha : amenities.contains s.amenity_select = true) :
    (controllerStep dests store df_ecdf s
        (Stimulus.rangeBrushed "ecdf" "selectedData" (some ⟨(lo, hi)⟩))).x_range =
      some (lo, hi) ∧
    (controllerStep dests store df_ecdf s
        (Stimulus.rangeBrushed "ecdf" "selectedData" (some ⟨(lo, hi)⟩))).ecdf_selectedData =
      some ⟨(lo, hi)⟩ ∧
    selectedGeoids
      (controllerStep dests store df_ecdf s
        (Stimulus.rangeBrushed "ecdf" "selectedData" (some ⟨(lo, hi)⟩))).map_fig =
      [] := by
  rw [step_brush_some_eq dests store df_ecdf s lo hi ha]
  refine ⟨rfl, rfl, ?_⟩
  simp only [selectedGeoids]
  rw [betweenIdx_empty store s.amenity_select lo hi h]
  rfl

/-- Witness for the amended C8 at the inverted interval [10, 0]. -/
theorem claim8_amended_witness :
    (controllerStep sampleDests sampleStore sampleEcdf baseState
        (Stimulus.rangeBrushed "ecdf" "selectedData" (some ⟨((10 : ℚ), (0 : ℚ))⟩))).x_range =
      some (10, 0) ∧
    (controllerStep sampleDests sampleStore sampleEcdf baseState
        (Stimulus.rangeBrushed "ecdf" "selectedData" (some ⟨((10 : ℚ), (0 : ℚ))⟩))).ecdf_selectedData =
      some ⟨(10, 0)⟩ ∧
    selectedGeoids
      (controllerStep sampleDests sampleStore sampleEcdf baseState
        (Stimulus.rangeBrushed "ecdf" "selectedData" (some ⟨((10 : ℚ), (0 : ℚ))⟩))).map_fig =
      [] :=
  claim8_amended_inverted_range_accepted sampleDests sampleStore sampleEcdf
    baseState 10 0 (by decide) (by decide)

/-- Claim C10: a brush event from the active chart carrying an empty
(cleared) selection payload is treated exactly like the unbounded range:
the applied range is cleared, the rebuilt map equals the one produced by
an initial call with no stored selection, and the highlight is the full
block set. -/
theorem claim10_cleared_brush_is_unbounded (dests : List Dest)
    (store : DistStore) (df_ecdf : List EcdfRow) (s : AppState)
    (ha : amenities.contains s.amenity_select = true) :
    (controllerStep dests store df_ecdf s
        (Stimulus.rangeBrushed "ecdf" "selectedData" none)).x_range = none ∧
    (controllerStep dests store df_ecdf s
        (Stimulus.rangeBrushed "ecdf" "selectedData" none)).ecdf_selectedData = none ∧
    update_map dests store s.amenity_select none none =
      Except.ok (controllerStep dests store df_ecdf s
        (Stimulus.rangeBrushed "ecdf" "selectedData" none)).map_fig ∧
    selectedGeoids
      (controllerStep dests store df_ecdf s
        (Stimulus.rangeBrushed "ecdf" "selectedData" none)).map_fig =
      store.map DistRow.geoid10 := by
  rw [step_brush_none_eq dests store df_ecdf s ha]
  refine ⟨rfl, rfl, ?_, selectedGeoids_full store _ rfl rfl⟩
  rw [update_map_none_trig]
  rw [show compute_x_range "" "" (none : Option SelectedData) = none from rfl]
  exact generate_map_ok store s.amenity_select _ none ha

/-- Witness for C10: clearing the brush from the brushed state. -/
theorem claim10_witness :
    (controllerStep sampleDests sampleStore sampleEcdf brushState
        (Stimulus.rangeBrushed "ecdf" "selectedData" none)).x_range = none ∧
    (controllerStep sampleDests sampleStore sampleEcdf brushState
        (Stimulus.rangeBrushed "ecdf" "selectedData" none)).ecdf_selectedData = none ∧
    update_map sampleDests sampleStore brushState.amenity_select none none =
      Except.ok (controllerStep sampleDests sampleStore sampleEcdf brushState
        (Stimulus.rangeBrushed "ecdf" "selectedData" none)).map_fig ∧
    selectedGeoids
      (controllerStep sampleDests sampleStore sampleEcdf brushState
        (Stimulus.rangeBrushed "ecdf" "selectedData" none)).map_fig =
      sampleStore.map DistRow.geoid10 :=
  claim10_cleared_brush_is_unbounded sampleDests sampleStore sampleEcdf
    brushState (by decide)

end DashProximity
